import Mathlib

/-
  Verification of the youtube-watchparty core: the server-side room state
  authority (server index file) and the client reconciliation engine
  (src/hooks/useVideoSync.ts), embedded shallowly.  Times are rationals:
  wall-clock values are milliseconds, media positions are seconds, matching
  the JavaScript number fields they embed.
-/

namespace WatchParty

/-- Threshold SYNC_CONFIG.TIME_SYNC_THRESHOLD = 1.5 seconds from useVideoSync.ts. -/
def TIME_SYNC_THRESHOLD : ℚ := 3 / 2

/-- Server-side per-room record, mirroring the fields written by the server:
rooms[roomId] = (participants omitted) currentVideoId, currentTime, isPlaying,
lastUpdated. -/
structure Room where
  currentVideoId : Option String
  currentTime : ℚ
  isPlaying : Bool
  lastUpdated : ℚ
deriving DecidableEq, Repr

/-- The rooms object, as an association list from room id to room record. -/
abbrev Rooms := List (String × Room)

/-- Lookup of rooms[roomId]. -/
def findRoom : Rooms → String → Option Room
  | [], _ => none
  | (k, r) :: rest, roomId => if k = roomId then some r else findRoom rest roomId

/-- In-place update of rooms[roomId]; the server only assigns to rooms[roomId]
after a successful existence check, so only existing keys are updated. -/
def setRoom : Rooms → String → Room → Rooms
  | [], _, _ => []
  | (k, r0) :: rest, roomId, r =>
      if k = roomId then (k, r) :: rest else (k, r0) :: setRoom rest roomId r

/-- JavaScript truthiness of the stored currentVideoId: non-null and non-empty. -/
def truthyVideoId : Option String → Bool
  | none => false
  | some s => if s = "" then false else true

/-- A wire payload object with the five optional fields of the protocol.
none encodes an absent field. -/
structure Payload where
  roomId : Option String
  time : Option ℚ
  isPlaying : Option Bool
  videoId : Option String
  timestamp : Option ℚ
deriving DecidableEq, Repr

/-- Inbound control events as destructured by the server handlers.  The
force sync handler reads time, isPlaying and videoId with explicit
undefined checks, so those fields are optional there. -/
inductive ServerEvent where
  | load (roomId : String) (videoId : String) (timestamp : ℚ)
  | play (roomId : String) (time : ℚ) (timestamp : ℚ)
  | pause (roomId : String) (time : ℚ) (timestamp : ℚ)
  | seek (roomId : String) (time : ℚ) (timestamp : ℚ)
  | sync (roomId : String) (time : ℚ) (isPlaying : Bool) (videoId : String) (timestamp : ℚ)
  | forceSync (roomId : String) (time : Option ℚ) (isPlaying : Option Bool)
      (videoId : Option String) (timestamp : ℚ)
deriving DecidableEq, Repr

/-- The roomId field of an event. -/
def ServerEvent.roomId : ServerEvent → String
  | .load r _ _ => r
  | .play r _ _ => r
  | .pause r _ _ => r
  | .seek r _ _ => r
  | .sync r _ _ _ _ => r
  | .forceSync r _ _ _ _ => r

/-- The wire name of an event. -/
def ServerEvent.name : ServerEvent → String
  | .load _ _ _ => "video:load"
  | .play _ _ _ => "video:play"
  | .pause _ _ _ => "video:pause"
  | .seek _ _ _ => "video:seek"
  | .sync _ _ _ _ _ => "video:sync"
  | .forceSync _ _ _ _ _ => "video:force_sync"

/-- The payload object carried by an event, i.e. the spread of the received
data object. -/
def ServerEvent.toPayload : ServerEvent → Payload
  | .load r v ts => ⟨some r, none, none, some v, some ts⟩
  | .play r t ts => ⟨some r, some t, none, none, some ts⟩
  | .pause r t ts => ⟨some r, some t, none, none, some ts⟩
  | .seek r t ts => ⟨some r, some t, none, none, some ts⟩
  | .sync r t p v ts => ⟨some r, some t, some p, some v, some ts⟩
  | .forceSync r t p v ts => ⟨some r, t, p, v, some ts⟩

/-- Events whose unknown-room branch relays to the other members of the
current room of the sender: play, pause, seek and sync (load and force sync
have no such branch). -/
def ServerEvent.relaysOnUnknown : ServerEvent → Bool
  | .play _ _ _ => true
  | .pause _ _ _ => true
  | .seek _ _ _ => true
  | .sync _ _ _ _ _ => true
  | _ => false

/-- Destination of an emit from the server. -/
inductive Target where
  | allInRoom (roomId : String)
  | othersInRoom (roomId : String)
  | toSender
deriving DecidableEq, Repr

/-- One emit performed by a server handler. -/
structure Emit where
  target : Target
  event : String
  payload : Payload
deriving DecidableEq, Repr

/-- One server control-event handler step: from the rooms table, the room the
socket joined (currentRoom) and the clock value now, it returns the new rooms
table and the list of emits, exactly following the six socket.on handlers. -/
def serverHandle (rooms : Rooms) (currentRoom : String) (now : ℚ) :
    ServerEvent → Rooms × List Emit
  | .load r v _ts =>
      match findRoom rooms r with
      | some room =>
          (setRoom rooms r
             { room with
                currentVideoId := some v
                currentTime := 0
                isPlaying := true
                lastUpdated := now },
           [⟨Target.allInRoom r, "video:load", ⟨none, none, none, some v, none⟩⟩])
      | none => (rooms, [])
  | .play r t ts =>
      match findRoom rooms r with
      | some room =>
          (setRoom rooms r { room with isPlaying := true, currentTime := t, lastUpdated := now },
           [⟨Target.allInRoom r, "video:play", (ServerEvent.play r t ts).toPayload⟩])
      | none =>
          (rooms, [⟨Target.othersInRoom currentRoom, "video:play",
              (ServerEvent.play r t ts).toPayload⟩])
  | .pause r t ts =>
      match findRoom rooms r with
      | some room =>
          (setRoom rooms r { room with isPlaying := false, currentTime := t, lastUpdated := now },
           [⟨Target.allInRoom r, "video:pause", (ServerEvent.pause r t ts).toPayload⟩])
      | none =>
          (rooms, [⟨Target.othersInRoom currentRoom, "video:pause",
              (ServerEvent.pause r t ts).toPayload⟩])
  | .seek r t ts =>
      match findRoom rooms r with
      | some room =>
          (setRoom rooms r { room with currentTime := t, lastUpdated := now },
           [⟨Target.allInRoom r, "video:seek", (ServerEvent.seek r t ts).toPayload⟩])
      | none =>
          (rooms, [⟨Target.othersInRoom currentRoom, "video:seek",
              (ServerEvent.seek r t ts).toPayload⟩])
  | .sync r t p v ts =>
      match findRoom rooms r with
      | some room =>
          (setRoom rooms r
             { room with
                currentVideoId := if v = "" then room.currentVideoId else some v
                currentTime := t
                isPlaying := p
                lastUpdated := now },
           [⟨Target.allInRoom r, "video:sync", (ServerEvent.sync r t p v ts).toPayload⟩])
      | none =>
          (rooms, [⟨Target.othersInRoom currentRoom, "video:sync",
              (ServerEvent.sync r t p v ts).toPayload⟩])
  | .forceSync r t p v ts =>
      match findRoom rooms r with
      | some room =>
          (setRoom rooms r
             { room with
                currentTime := t.getD room.currentTime
                isPlaying := p.getD room.isPlaying
                currentVideoId :=
                  match v with
                  | some x => some x
                  | none => room.currentVideoId
                lastUpdated := now },
           [⟨Target.allInRoom r, "video:force_sync",
              (ServerEvent.forceSync r t p v ts).toPayload⟩])
      | none => (rooms, [])

/-- The snapshot answered to a video:get_current request. -/
structure CurrentAnswer where
  videoId : String
  time : ℚ
  isPlaying : Bool
deriving DecidableEq, Repr

/-- The video:get_current handler: answers only when the room exists and its
currentVideoId is truthy; projects the position by elapsed wall-clock time
when playing. -/
def getCurrent (rooms : Rooms) (roomId : String) (now : ℚ) : Option CurrentAnswer :=
  match findRoom rooms roomId with
  | none => none
  | some room =>
      match room.currentVideoId with
      | none => none
      | some v =>
          if v = "" then none
          else
            some ⟨v,
              if room.isPlaying then room.currentTime + (now - room.lastUpdated) / 1000
              else room.currentTime,
              room.isPlaying⟩

/-- Local engine state of the client reconciliation hook: the room store
fields currentVideoId (with "" encoding the null initial value), currentTime
and isPlaying, plus the in-flight flags seeking, syncPending and
forceResumeOnFocus of useVideoSync.ts. -/
structure EngineState where
  currentVideoId : String
  currentTime : ℚ
  isPlaying : Bool
  seeking : Bool
  syncPending : Bool
  forceResumeOnFocus : Bool
deriving DecidableEq, Repr

/-- A call issued to the player control surface. -/
inductive PlayerCmd where
  | play
  | pause
  | seek (t : ℚ)
deriving DecidableEq, Repr

/-- The payload fields a video:sync or video:force_sync handler destructures:
time, isPlaying and videoId ("" encoding an absent or null videoId). -/
structure SyncMsg where
  time : ℚ
  isPlaying : Bool
  videoId : String
deriving DecidableEq, Repr

/-- Observable player state, for settling force-sync behaviour. -/
structure PlayerState where
  time : ℚ
  playing : Bool
deriving DecidableEq, Repr

/-- Effect of one control call on the player. -/
def applyCmd (p : PlayerState) : PlayerCmd → PlayerState
  | PlayerCmd.play => { p with playing := true }
  | PlayerCmd.pause => { p with playing := false }
  | PlayerCmd.seek t => { p with time := t }

/-- Effect of a command list on the player, in order. -/
def applyCmds (p : PlayerState) (cmds : List PlayerCmd) : PlayerState :=
  cmds.foldl applyCmd p

/-- First step of handleVideoSync: when a sync answer was pending, clear
syncPending and forceResumeOnFocus. -/
def clearPending (st : EngineState) : EngineState :=
  if st.syncPending then { st with syncPending := false, forceResumeOnFocus := false } else st

/-- The inbound video:sync handler of useVideoSync.ts.  ready encodes
playerRef.current being set together with isReady; the returned list holds the
player calls issued.  A changed non-empty videoId switches the video and
returns; otherwise a changed isPlaying toggles playback, and the position is
corrected only when the absolute difference exceeds the threshold, setting the
seeking flag (its 500 ms settle reset is modelled separately). -/
def handleVideoSync (ready : Bool) (st0 : EngineState) (m : SyncMsg) :
    EngineState × List PlayerCmd :=
  let st := clearPending st0
  if m.videoId ≠ "" ∧ m.videoId ≠ st.currentVideoId then
    ({ st with currentVideoId := m.videoId, currentTime := 0, isPlaying := m.isPlaying }, [])
  else
    let afterPlay : EngineState × List PlayerCmd :=
      if m.isPlaying ≠ st.isPlaying then
        ({ st with isPlaying := m.isPlaying },
         if ready then [if m.isPlaying then PlayerCmd.play else PlayerCmd.pause] else [])
      else (st, [])
    let st1 := afterPlay.1
    if TIME_SYNC_THRESHOLD < |m.time - st1.currentTime| then
      if ready then
        ({ st1 with currentTime := m.time, seeking := true },
         afterPlay.2 ++ [PlayerCmd.seek m.time])
      else ({ st1 with currentTime := m.time }, afterPlay.2)
    else (st1, afterPlay.2)

/-- The inbound video:force_sync handler of useVideoSync.ts.  Returns the new
engine state, the player calls issued immediately, and the player calls issued
by the 500 ms settle timeout (which also resets the seeking flag).  A changed
non-empty videoId switches the video and returns without touching the player;
otherwise the state is overwritten and, when ready, the player is hard-seeked
and then resumed or paused after the settle window. -/
def handleForceSync (ready : Bool) (st : EngineState) (m : SyncMsg) :
    EngineState × List PlayerCmd × List PlayerCmd :=
  if m.videoId ≠ "" ∧ m.videoId ≠ st.currentVideoId then
    ({ st with currentVideoId := m.videoId, currentTime := 0, isPlaying := m.isPlaying }, [], [])
  else
    let st1 := { st with currentTime := m.time, isPlaying := m.isPlaying }
    if ready then
      ({ st1 with seeking := true }, [PlayerCmd.seek m.time],
       [if m.isPlaying then PlayerCmd.play else PlayerCmd.pause])
    else (st1, [], [])

/-- The inbound video:seek handler of useVideoSync.ts: stores the time and,
when ready, hard-seeks the player with no threshold comparison. -/
def handleVideoSeek (ready : Bool) (st : EngineState) (t : ℚ) :
    EngineState × List PlayerCmd :=
  let st1 := { st with currentTime := t }
  if ready then ({ st1 with seeking := true }, [PlayerCmd.seek t]) else (st1, [])

/-- Folding a sequence of inbound video:sync messages through the handler,
concatenating the player-call traces. -/
def syncRun (ready : Bool) : EngineState → List SyncMsg → EngineState × List PlayerCmd
  | st, [] => (st, [])
  | st, m :: ms =>
      let r := handleVideoSync ready st m
      let rest := syncRun ready r.1 ms
      (rest.1, r.2 ++ rest.2)

/-- Every message of the sequence is within the drift threshold of the local
time current when it arrives. -/
def allWithin (ready : Bool) : EngineState → List SyncMsg → Bool
  | _, [] => true
  | st, m :: ms =>
      decide (|m.time - st.currentTime| ≤ TIME_SYNC_THRESHOLD) &&
        allWithin ready (handleVideoSync ready st m).1 ms

/-- C1: for every room with a loaded video, the answer to video:get_current is
computed from the stored state: while playing, time is the stored time plus
the elapsed wall-clock milliseconds divided by 1000; while paused, time is
exactly the stored time; videoId and isPlaying are reported unchanged. -/
theorem C1_getCurrent_projection (rooms : Rooms) (roomId : String) (room : Room)
    (v : String) (now : ℚ)
    (hfind : findRoom rooms roomId = some room)
    (hv : room.currentVideoId = some v) (hne : v ≠ "") :
    (room.isPlaying = true →
      getCurrent rooms roomId now =
        some ⟨v, room.currentTime + (now - room.lastUpdated) / 1000, true⟩) ∧
    (room.isPlaying = false →
      getCurrent rooms roomId now = some ⟨v, room.currentTime, false⟩) := by
  constructor <;> intro hp <;> simp [getCurrent, hfind, hv, hne, hp]

/-- Witness for C1 at the joining-client scenario of the spec: room abc,
stored time 10, playing, lastUpdated 5000 ms before now, answer time 15. -/
theorem C1_witness :
    getCurrent [("r", Room.mk (some "abc") 10 true 5000)] "r" 10000 =
      some ⟨"abc", 10 + ((10000 : ℚ) - 5000) / 1000, true⟩ :=
  (C1_getCurrent_projection [("r", Room.mk (some "abc") 10 true 5000)] "r"
    (Room.mk (some "abc") 10 true 5000) "abc" 10000 rfl rfl (by decide)).1 rfl

@[simp]
lemma clearPending_currentVideoId (st : EngineState) :
    (clearPending st).currentVideoId = st.currentVideoId := by
  unfold clearPending; split <;> rfl

@[simp]
lemma clearPending_currentTime (st : EngineState) :
    (clearPending st).currentTime = st.currentTime := by
  unfold clearPending; split <;> rfl

@[simp]
lemma clearPending_isPlaying (st : EngineState) :
    (clearPending st).isPlaying = st.isPlaying := by
  unfold clearPending; split <;> rfl

@[simp]
lemma clearPending_syncPending (st : EngineState) :
    (clearPending st).syncPending = false := by
  unfold clearPending
  split
  · rfl
  · simp_all

lemma clearPending_id (st : EngineState) (h : st.syncPending = false) :
    clearPending st = st := by
  unfold clearPending
  simp [h]

lemma seek_not_mem_handleVideoSync (ready : Bool) (st : EngineState) (m : SyncMsg) (t : ℚ)
    (h : |m.time - st.currentTime| ≤ TIME_SYNC_THRESHOLD) :
    PlayerCmd.seek t ∉ (handleVideoSync ready st m).2 := by
  have h' : ¬ TIME_SYNC_THRESHOLD < |m.time - st.currentTime| := not_lt.mpr h
  simp only [handleVideoSync]
  split_ifs <;> simp_all <;> (exfalso; linarith)

lemma handleVideoSync_noswitch (ready : Bool) (st : EngineState) (m : SyncMsg)
    (hm : m.videoId = "" ∨ m.videoId = st.currentVideoId) :
    (handleVideoSync ready st m).1.currentVideoId = st.currentVideoId ∧
    (handleVideoSync ready st m).1.isPlaying = m.isPlaying ∧
    |m.time - (handleVideoSync ready st m).1.currentTime| ≤ TIME_SYNC_THRESHOLD ∧
    (handleVideoSync ready st m).1.syncPending = false := by
  have hcond : ¬ (m.videoId ≠ "" ∧ m.videoId ≠ (clearPending st).currentVideoId) := by
    rcases hm with h | h <;> simp [h]
  simp only [handleVideoSync, if_neg hcond]
  split_ifs <;>
    refine ⟨by simp, by simp_all, ?_, by simp⟩ <;>
    simp_all [not_lt, TIME_SYNC_THRESHOLD] <;> norm_num

/-- C2: for every sequence of inbound video:sync messages in which each
message differs from the engine local time current at its arrival by at most
the 1.5 s threshold, the sync handler never invokes seekTo on the player. -/
theorem C2_sync_within_threshold_never_seeks (ready : Bool) (st : EngineState)
    (ms : List SyncMsg) (h : allWithin ready st ms = true) :
    ∀ t, PlayerCmd.seek t ∉ (syncRun ready st ms).2 := by
  induction ms generalizing st with
  | nil => intro t hmem; simp [syncRun] at hmem
  | cons m ms ih =>
      intro t
      simp only [allWithin, Bool.and_eq_true, decide_eq_true_eq] at h
      simp only [syncRun, List.mem_append]
      rintro (hmem | hmem)
      · exact seek_not_mem_handleVideoSync ready st m t h.1 hmem
      · exact ih _ h.2 t hmem

/-- Witness for C2: a two-message heartbeat sequence with zero drift, one of
which toggles playback, produces no seek call. -/
theorem C2_witness :
    allWithin true (EngineState.mk "abc" 10 true false false false)
      [SyncMsg.mk 10 true "abc", SyncMsg.mk 10 false "abc"] = true ∧
    PlayerCmd.seek 5 ∉
      (syncRun true (EngineState.mk "abc" 10 true false false false)
        [SyncMsg.mk 10 true "abc", SyncMsg.mk 10 false "abc"]).2 :=
  ⟨by norm_num [allWithin, handleVideoSync, clearPending, TIME_SYNC_THRESHOLD],
   C2_sync_within_threshold_never_seeks true (EngineState.mk "abc" 10 true false false false)
     [SyncMsg.mk 10 true "abc", SyncMsg.mk 10 false "abc"]
     (by norm_num [allWithin, handleVideoSync, clearPending, TIME_SYNC_THRESHOLD]) 5⟩

/-- C3 counterexample: a video:force_sync carrying a different non-empty
videoId (current video a, message video b at time 100) issues no seek at all
and leaves the local time at 0, not at the message time, refuting the claim
that seek and force_sync hard-seek unconditionally from any prior state. -/
theorem C3_counterexample :
    (handleForceSync true (EngineState.mk "a" 20 true false false false)
        (SyncMsg.mk 100 true "b")).2.1 = [] ∧
    (handleForceSync true (EngineState.mk "a" 20 true false false false)
        (SyncMsg.mk 100 true "b")).1.currentTime = 0 := by
  constructor <;> rfl

/-- C3 amended: video:seek always hard-seeks with no threshold comparison;
video:force_sync hard-seeks to the message time — and the player time equals
the message time after the settle cycle — whenever the message videoId is
empty or equal to the current video (a differing non-empty videoId instead
switches the video and discards the time). -/
theorem C3_amended_hard_seek (st : EngineState) (m : SyncMsg) (t : ℚ) (p : PlayerState)
    (hm : m.videoId = "" ∨ m.videoId = st.currentVideoId) :
    (handleVideoSeek true st t).2 = [PlayerCmd.seek t] ∧
    (handleForceSync true st m).2.1 = [PlayerCmd.seek m.time] ∧
    (applyCmds (applyCmds p (handleForceSync true st m).2.1)
        (handleForceSync true st m).2.2).time = m.time := by
  have hcond : ¬ (m.videoId ≠ "" ∧ m.videoId ≠ st.currentVideoId) := by
    rcases hm with h | h <;> simp [h]
  refine ⟨by simp [handleVideoSeek], by simp [handleForceSync, hcond], ?_⟩
  cases hp : m.isPlaying <;> simp [handleForceSync, hcond, applyCmds, applyCmd, hp]

/-- Witness for C3: a force_sync for the already-loaded video v at time 42
seeks to 42 and the player lands on 42 after the settle cycle. -/
theorem C3_witness :
    ((SyncMsg.mk 42 true "v").videoId = "" ∨
      (SyncMsg.mk 42 true "v").videoId =
        (EngineState.mk "v" 3 false false false false).currentVideoId) ∧
    ((handleVideoSeek true (EngineState.mk "v" 3 false false false false) 7).2 =
        [PlayerCmd.seek 7] ∧
      (handleForceSync true (EngineState.mk "v" 3 false false false false)
          (SyncMsg.mk 42 true "v")).2.1 = [PlayerCmd.seek 42] ∧
      (applyCmds
          (applyCmds (PlayerState.mk 0 false)
            (handleForceSync true (EngineState.mk "v" 3 false false false false)
                (SyncMsg.mk 42 true "v")).2.1)
          (handleForceSync true (EngineState.mk "v" 3 false false false false)
              (SyncMsg.mk 42 true "v")).2.2).time = (SyncMsg.mk 42 true "v").time) :=
  ⟨Or.inr rfl,
   C3_amended_hard_seek (EngineState.mk "v" 3 false false false false)
     (SyncMsg.mk 42 true "v") 7 (PlayerState.mk 0 false) (Or.inr rfl)⟩

/-- C4 counterexample: the same video:sync message applied twice is not a
no-op when it switches the video: with current video a and message
(time 10, playing, video b), the first application switches to b at time 0
and the second application moves the time to 10 and seeks the player. -/
theorem C4_counterexample :
    (handleVideoSync true
        (handleVideoSync true (EngineState.mk "a" 0 true false false false)
            (SyncMsg.mk 10 true "b")).1
        (SyncMsg.mk 10 true "b")).1 ≠
      (handleVideoSync true (EngineState.mk "a" 0 true false false false)
          (SyncMsg.mk 10 true "b")).1 ∧
    (handleVideoSync true
        (handleVideoSync true (EngineState.mk "a" 0 true false false false)
            (SyncMsg.mk 10 true "b")).1
        (SyncMsg.mk 10 true "b")).2 ≠ [] := by
  have habs : |(10 : ℚ) - 0| = 10 := by
    rw [sub_zero]
    exact abs_of_nonneg (by norm_num)
  constructor <;>
    simp [handleVideoSync, clearPending, TIME_SYNC_THRESHOLD, habs, EngineState.mk.injEq] <;>
    norm_num

/-- C4 amended: applying the same video:sync message twice consecutively
changes local state at most once provided the message does not switch the
video (its videoId is empty or equals the current video): the second
application returns the state unchanged and issues no player call. -/
theorem C4_amended_sync_idempotent (ready : Bool) (st : EngineState) (m : SyncMsg)
    (hm : m.videoId = "" ∨ m.videoId = st.currentVideoId) :
    handleVideoSync ready (handleVideoSync ready st m).1 m =
      ((handleVideoSync ready st m).1, []) := by
  obtain ⟨hv, hp, hd, hsp⟩ := handleVideoSync_noswitch ready st m hm
  set R := (handleVideoSync ready st m).1 with hR
  have hclear : clearPending R = R := clearPending_id _ hsp
  have hcond : ¬ (m.videoId ≠ "" ∧ m.videoId ≠ R.currentVideoId) := by
    rw [hv]
    rcases hm with h | h <;> simp [h]
  have hplay : ¬ (m.isPlaying ≠ R.isPlaying) := by
    rw [hp]
    simp
  have hthr : ¬ TIME_SYNC_THRESHOLD < |m.time - R.currentTime| := not_lt.mpr hd
  rw [handleVideoSync.eq_def]
  simp only [hclear, if_neg hcond, if_neg hplay, if_neg hthr]

/-- Witness for C4: re-applying a sync for the already-loaded video abc with a
large drift is a no-op the second time. -/
theorem C4_witness :
    ((SyncMsg.mk 30 false "abc").videoId = "" ∨
      (SyncMsg.mk 30 false "abc").videoId =
        (EngineState.mk "abc" 4 true false true false).currentVideoId) ∧
    handleVideoSync true
        (handleVideoSync true (EngineState.mk "abc" 4 true false true false)
            (SyncMsg.mk 30 false "abc")).1
        (SyncMsg.mk 30 false "abc") =
      ((handleVideoSync true (EngineState.mk "abc" 4 true false true false)
          (SyncMsg.mk 30 false "abc")).1, []) :=
  ⟨Or.inr rfl,
   C4_amended_sync_idempotent true (EngineState.mk "abc" 4 true false true false)
     (SyncMsg.mk 30 false "abc") (Or.inr rfl)⟩

/-- C10: a video:sync or video:force_sync message whose videoId is non-empty
and differs from the current video switches the video, sets local time to 0
and isPlaying to the message value, and returns without any player call: the
message time field is discarded. -/
theorem C10_video_switch_discards_time (ready : Bool) (st : EngineState) (m : SyncMsg)
    (h1 : m.videoId ≠ "") (h2 : m.videoId ≠ st.currentVideoId) :
    handleVideoSync ready st m =
      ({ clearPending st with
          currentVideoId := m.videoId
          currentTime := 0
          isPlaying := m.isPlaying }, []) ∧
    handleForceSync ready st m =
      ({ st with
          currentVideoId := m.videoId
          currentTime := 0
          isPlaying := m.isPlaying }, [], []) := by
  have hcond : m.videoId ≠ "" ∧ m.videoId ≠ (clearPending st).currentVideoId := by
    refine ⟨h1, ?_⟩
    simpa using h2
  constructor
  · simp only [handleVideoSync]
    rw [if_pos hcond]
  · simp only [handleForceSync]
    rw [if_pos ⟨h1, h2⟩]

/-- Witness for C10: a sync naming video b while video a is loaded switches to
b at time 0, paused, with no player call. -/
theorem C10_witness :
    (SyncMsg.mk 77 false "b").videoId ≠ "" ∧
    (SyncMsg.mk 77 false "b").videoId ≠
      (EngineState.mk "a" 9 true false true true).currentVideoId ∧
    (handleVideoSync true (EngineState.mk "a" 9 true false true true)
        (SyncMsg.mk 77 false "b") =
      ({ clearPending (EngineState.mk "a" 9 true false true true) with
          currentVideoId := (SyncMsg.mk 77 false "b").videoId
          currentTime := 0
          isPlaying := (SyncMsg.mk 77 false "b").isPlaying }, []) ∧
     handleForceSync true (EngineState.mk "a" 9 true false true true)
        (SyncMsg.mk 77 false "b") =
      ({ EngineState.mk "a" 9 true false true true with
          currentVideoId := (SyncMsg.mk 77 false "b").videoId
          currentTime := 0
          isPlaying := (SyncMsg.mk 77 false "b").isPlaying }, [], [])) :=
  ⟨by decide, by decide,
   C10_video_switch_discards_time true (EngineState.mk "a" 9 true false true true)
     (SyncMsg.mk 77 false "b") (by decide) (by decide)⟩

/-- C7 counterexample: a video:play naming an unknown room x, from a sender
whose current room y exists and has other participants, leaves all room state
unchanged but relays the event to the other members of room y, refuting the
claim that nothing is broadcast and at most the sender is answered. -/
theorem C7_counterexample :
    (serverHandle [("y", Room.mk (some "v") 0 false 0)] "y" 999
        (ServerEvent.play "x" 5 111)).1 = [("y", Room.mk (some "v") 0 false 0)] ∧
    (serverHandle [("y", Room.mk (some "v") 0 false 0)] "y" 999
        (ServerEvent.play "x" 5 111)).2 =
      [Emit.mk (Target.othersInRoom "y") "video:play"
        (Payload.mk (some "x") (some 5) none none (some 111))] := by
  constructor <;> rfl

/-- C7 amended: a control event naming an unknown room changes no room state
and never answers the sender; video:force_sync (and video:load) then emit
nothing at all, while video:play, video:pause, video:seek and video:sync are
relayed unchanged to the other members of the current room of the sender. -/
theorem C7_amended_unknown_room (rooms : Rooms) (currentRoom : String) (now : ℚ)
    (e : ServerEvent) (h : findRoom rooms e.roomId = none) :
    (serverHandle rooms currentRoom now e).1 = rooms ∧
    (e.relaysOnUnknown = true →
      (serverHandle rooms currentRoom now e).2 =
        [Emit.mk (Target.othersInRoom currentRoom) e.name e.toPayload]) ∧
    (e.relaysOnUnknown = false → (serverHandle rooms currentRoom now e).2 = []) := by
  cases e <;>
    simp_all [serverHandle, ServerEvent.roomId, ServerEvent.name,
      ServerEvent.relaysOnUnknown, ServerEvent.toPayload]

/-- Witness for C7 at a concrete unknown-room video:sync. -/
theorem C7_witness :
    findRoom ([] : Rooms) (ServerEvent.sync "ghost" 3 true "vid" 7).roomId = none ∧
    ((serverHandle ([] : Rooms) "home" 50 (ServerEvent.sync "ghost" 3 true "vid" 7)).1 =
        ([] : Rooms) ∧
      ((ServerEvent.sync "ghost" 3 true "vid" 7).relaysOnUnknown = true →
        (serverHandle ([] : Rooms) "home" 50 (ServerEvent.sync "ghost" 3 true "vid" 7)).2 =
          [Emit.mk (Target.othersInRoom "home") (ServerEvent.sync "ghost" 3 true "vid" 7).name
            (ServerEvent.sync "ghost" 3 true "vid" 7).toPayload]) ∧
      ((ServerEvent.sync "ghost" 3 true "vid" 7).relaysOnUnknown = false →
        (serverHandle ([] : Rooms) "home" 50 (ServerEvent.sync "ghost" 3 true "vid" 7)).2 = [])) :=
  ⟨rfl, C7_amended_unknown_room [] "home" 50 (ServerEvent.sync "ghost" 3 true "vid" 7) rfl⟩

/-- C8 counterexample: a video:load on a known room broadcasts only the
videoId; the roomId and the sender-stamped timestamp of the received event
are dropped, so the broadcast is not the event as received. -/
theorem C8_counterexample :
    (serverHandle [("r", Room.mk (some "old") 3 false 0)] "r" 777
        (ServerEvent.load "r" "X" 123)).2 =
      [Emit.mk (Target.allInRoom "r") "video:load"
        (Payload.mk none none none (some "X") none)] ∧
    Payload.mk none none none (some "X") none ≠ (ServerEvent.load "r" "X" 123).toPayload := by
  constructor
  · rfl
  · simp [ServerEvent.toPayload]

/-- C8 amended: for play, pause, seek, sync and force_sync applied on a known
room, the broadcast to the whole room is the event exactly as received, every
payload field including the sender-stamped timestamp unmodified; for load the
broadcast carries only the videoId, dropping roomId and timestamp. -/
theorem C8_amended_broadcast (rooms : Rooms) (currentRoom : String) (now : ℚ)
    (e : ServerEvent) (room : Room) (h : findRoom rooms e.roomId = some room) :
    ((e.relaysOnUnknown = true ∨ (∃ r t p v ts, e = ServerEvent.forceSync r t p v ts)) →
      (serverHandle rooms currentRoom now e).2 =
        [Emit.mk (Target.allInRoom e.roomId) e.name e.toPayload]) ∧
    (∀ r v ts, e = ServerEvent.load r v ts →
      (serverHandle rooms currentRoom now e).2 =
        [Emit.mk (Target.allInRoom r) "video:load"
          (Payload.mk none none none (some v) none)]) := by
  cases e <;>
    simp_all [serverHandle, ServerEvent.roomId, ServerEvent.name,
      ServerEvent.relaysOnUnknown, ServerEvent.toPayload]

/-- Witness for C8 at a concrete known-room video:play with timestamp 321. -/
theorem C8_witness :
    findRoom [("r", Room.mk (some "v") 1 true 0)] (ServerEvent.play "r" 9 321).roomId =
      some (Room.mk (some "v") 1 true 0) ∧
    ((((ServerEvent.play "r" 9 321).relaysOnUnknown = true ∨
        (∃ r t p v ts, ServerEvent.play "r" 9 321 = ServerEvent.forceSync r t p v ts)) →
      (serverHandle [("r", Room.mk (some "v") 1 true 0)] "r" 555
          (ServerEvent.play "r" 9 321)).2 =
        [Emit.mk (Target.allInRoom (ServerEvent.play "r" 9 321).roomId)
          (ServerEvent.play "r" 9 321).name (ServerEvent.play "r" 9 321).toPayload]) ∧
     (∀ r v ts, ServerEvent.play "r" 9 321 = ServerEvent.load r v ts →
      (serverHandle [("r", Room.mk (some "v") 1 true 0)] "r" 555
          (ServerEvent.play "r" 9 321)).2 =
        [Emit.mk (Target.allInRoom r) "video:load"
          (Payload.mk none none none (some v) none)])) :=
  ⟨rfl, C8_amended_broadcast [("r", Room.mk (some "v") 1 true 0)] "r" 555
    (ServerEvent.play "r" 9 321) (Room.mk (some "v") 1 true 0) rfl⟩

/-- Refs read and written by the visibility-change handler of
useVideoSync.ts. -/
structure VisibilityRefs where
  lastVisibilityChange : ℚ
  timeBeforeBlur : ℚ
  wasPlayingBeforeBlur : Bool
  blurHandled : Bool
deriving DecidableEq, Repr

/-- Resume branch of handleVisibilityChange (the document becomes visible
again): following the source order, lastVisibilityChange is overwritten with
now at the top of the handler, and only afterwards is timeElapsed computed as
(now minus lastVisibilityChange) / 1000, which is therefore zero.  Returns
none when the handler returns without a restore target (rapid-change debounce
or no recorded blur), otherwise the target time used for the restore seek. -/
def resumeTarget (refs : VisibilityRefs) (now : ℚ) : Option ℚ :=
  let timeSinceLastChange := now - refs.lastVisibilityChange
  let lastVisAfter := now
  if timeSinceLastChange < 100 then none
  else if refs.blurHandled then
    let timeElapsed := (now - lastVisAfter) / 1000
    some (if refs.wasPlayingBeforeBlur ∧ timeElapsed < 60 then refs.timeBeforeBlur + timeElapsed
          else refs.timeBeforeBlur)
  else none

/-- C5 evaluation at the failing input: the tab goes hidden at 42000 ms with
snapshot time 50 while playing, and becomes visible 8 s later at 50000 ms.
The code computes a restore target of 50, not the projected 58 the spec
describes, because the elapsed term is computed against the
already-overwritten lastVisibilityChange and is always zero. -/
theorem C5_resume_target_code_eval :
    resumeTarget (VisibilityRefs.mk 42000 50 true true) 50000 = some 50 := by
  norm_num [resumeTarget]

/-- One call of the exposed seekTo command of useVideoSync.ts: updates local
time, marks seeking, and when connected emits one video:seek on the wire
immediately — there is no debounce window in the code.  Returns the new
engine state, the list of wire seek times emitted, and the player calls. -/
def seekToCall (connected ready : Bool) (st : EngineState) (secs : ℚ) :
    EngineState × List ℚ × List PlayerCmd :=
  ({ st with currentTime := secs, seeking := true },
   if connected then [secs] else [],
   if ready then [PlayerCmd.seek secs] else [])

/-- A burst of local seek intents, applied in order, concatenating the wire
messages and the player calls. -/
def seekBurst (connected ready : Bool) : EngineState → List ℚ → EngineState × List ℚ × List PlayerCmd
  | st, [] => (st, [], [])
  | st, s :: rest =>
      let r := seekToCall connected ready st s
      let r2 := seekBurst connected ready r.1 rest
      (r2.1, r.2.1 ++ r2.2.1, r.2.2 ++ r2.2.2)

/-- C6 evaluation at the failing input: the burst 10, 20, 30 puts three
video:seek messages on the wire (the claim and the spec say exactly one,
carrying 30), while the local player is indeed updated immediately for each
intent. -/
theorem C6_seek_burst_code_eval :
    (seekBurst true true (EngineState.mk "v" 0 true false false false) [10, 20, 30]).2.1 =
      [10, 20, 30] ∧
    (seekBurst true true (EngineState.mk "v" 0 true false false false) [10, 20, 30]).2.2 =
      [PlayerCmd.seek 10, PlayerCmd.seek 20, PlayerCmd.seek 30] := by
  constructor <;> rfl

/-- Which player control-surface calls throw, for modelling exceptions. -/
structure SurfaceFaults where
  seekThrows : Bool
  getTimeThrows : Bool
deriving DecidableEq, Repr

/-- The inbound video:seek handler with a fallible player surface.  The
handler body has no try/catch: when ready it stores the time, sets the
seeking flag and calls player.seekTo before scheduling the settle timeout, so
a throwing seekTo escapes the handler (error result) with seeking still set
and the resetting timeout never scheduled. -/
def handleVideoSeekExc (f : SurfaceFaults) (ready : Bool) (st : EngineState) (t : ℚ) :
    Except EngineState (EngineState × List PlayerCmd) :=
  let st1 := { st with currentTime := t }
  if ready then
    let st2 := { st1 with seeking := true }
    if f.seekThrows then Except.error st2
    else Except.ok (st2, [PlayerCmd.seek t])
  else Except.ok (st1, [])

/-- The periodic sync tick of useVideoSync.ts, which does wrap its player
read in try/catch: a throwing getCurrentTime is caught and the tick returns
normally with the time state unchanged and nothing emitted.  Result is
(currentTime, lastUpdateTime, emitted sync messages). -/
def syncTick (f : SurfaceFaults) (ready seeking : Bool)
    (playerTime currentTime lastUpdateTime : ℚ) (isPlaying : Bool) (videoId : String) :
    ℚ × ℚ × List SyncMsg :=
  if ready && !seeking then
    if f.getTimeThrows then (currentTime, lastUpdateTime, [])
    else if 1 < |playerTime - lastUpdateTime| then
      (playerTime, playerTime, [SyncMsg.mk playerTime isPlaying videoId])
    else (currentTime, lastUpdateTime, [])
  else (currentTime, lastUpdateTime, [])

/-- C9 counterexample: a throwing player.seekTo inside the video:seek socket
handler escapes the handler with the seeking flag left true, refuting the
claim that every player-control call is wrapped and always clears the
in-flight flags. -/
theorem C9_counterexample :
    handleVideoSeekExc (SurfaceFaults.mk true false) true
        (EngineState.mk "v" 0 false false false false) 7 =
      Except.error (EngineState.mk "v" 7 false true false false) := by
  rfl

/-- C9 amended: the periodic sync tick, visibility handler, state-change
handler, forceSyncAll and broadcastState wrap their player calls in
try/catch, but the inbound socket handlers and the seekTo command call the
player unwrapped: a throwing seekTo in the video:seek handler propagates and
leaves seeking true, while a throwing getCurrentTime in the periodic tick is
caught and leaves state unchanged. -/
theorem C9_amended_partial_wrapping (f : SurfaceFaults) (st : EngineState)
    (t pt ct lu : ℚ) (ip : Bool) (vid : String)
    (hs : f.seekThrows = true) (hg : f.getTimeThrows = true) :
    handleVideoSeekExc f true st t =
      Except.error { st with currentTime := t, seeking := true } ∧
    syncTick f true false pt ct lu ip vid = (ct, lu, []) := by
  constructor
  · simp [handleVideoSeekExc, hs]
  · simp [syncTick, hg]

/-- Witness for C9 at a concrete throwing surface. -/
theorem C9_witness :
    (SurfaceFaults.mk true true).seekThrows = true ∧
    (SurfaceFaults.mk true true).getTimeThrows = true ∧
    (handleVideoSeekExc (SurfaceFaults.mk true true) true
        (EngineState.mk "a" 1 true false false false) 9 =
      Except.error { EngineState.mk "a" 1 true false false false with
        currentTime := 9
        seeking := true } ∧
     syncTick (SurfaceFaults.mk true true) true false 4 2 3 true "a" = (2, 3, [])) :=
  ⟨rfl, rfl,
   C9_amended_partial_wrapping (SurfaceFaults.mk true true)
     (EngineState.mk "a" 1 true false false false) 9 4 2 3 true "a" rfl rfl⟩

end WatchParty
